import Mathlib

/-!
Shallow embedding of the client-side chat orchestrator
(src/frontend/src/App.tsx and src/frontend/src/hooks/useSessions.ts of the
AI-Buddy frontend).  Remote calls are modelled by passing the outcome of
the single fetch an operation performs as an explicit parameter; React
state updates become explicit state passing; the observable actions of a
handler (network calls, transcript appends, transcript replacement,
teach-status transitions, timer arming/cancellation) are recorded as an
event trace.

JSON values returned by the backend are modelled by the inductive `J`
below.  JSON numbers are restricted to integers so that the JavaScript
renderings used by the code (template-literal stringification,
`toFixed(3)`, truthiness) are exactly representable.

Note on text: the non-ASCII characters of App.tsx (typographic quotes,
em dashes) appear Mac-Roman-mojibaked in the packaged copy of the file;
the earlier copy of the same file in the repository carries the intended
UTF-8 characters, which are used here.
-/

namespace AiBuddy

/-- JSON-like runtime values (numbers restricted to integers). -/
inductive J where
  | null : J
  | bool : Bool → J
  | num : Int → J
  | str : String → J
  | arr : List J → J
  | obj : List (String × J) → J

mutual

/-- JavaScript template-literal rendering of a value (`String(v)`):
arrays join their element renderings with commas (null rendering empty),
objects render as "[object Object]". -/
def jText : J → String
  | J.null => "null"
  | J.bool b => if b then "true" else "false"
  | J.num n => toString n
  | J.str s => s
  | J.arr items => String.intercalate "," (jTextList items)
  | J.obj _ => "[object Object]"

/-- Element renderings for `Array.prototype.toString`: null elements
render as the empty string. -/
def jTextList : List J → List String
  | [] => []
  | J.null :: rest => "" :: jTextList rest
  | v :: rest => jText v :: jTextList rest

end

/-- Escape a character for a JSON string literal (quotes and backslashes). -/
def escapeJsonChar (c : Char) : String :=
  if c = '"' then "\\\"" else if c = '\\' then "\\\\" else String.singleton c

/-- Escape a string for inclusion in JSON output. -/
def escapeJson (s : String) : String :=
  String.join (s.toList.map escapeJsonChar)

mutual

/-- `JSON.stringify` on the modelled values. -/
def stringify : J → String
  | J.null => "null"
  | J.bool b => if b then "true" else "false"
  | J.num n => toString n
  | J.str s => "\"" ++ escapeJson s ++ "\""
  | J.arr items => "[" ++ String.intercalate "," (stringifyList items) ++ "]"
  | J.obj fields => "\x7b" ++ String.intercalate "," (stringifyFields fields) ++ "\x7d"

/-- Stringify the elements of an array. -/
def stringifyList : List J → List String
  | [] => []
  | v :: rest => stringify v :: stringifyList rest

/-- Stringify the fields of an object. -/
def stringifyFields : List (String × J) → List String
  | [] => []
  | (k, v) :: rest => ("\"" ++ escapeJson k ++ "\":" ++ stringify v) :: stringifyFields rest

end

/-- JavaScript `String.prototype.trim`, written by structural recursion
on the character list so that concrete instances evaluate. -/
def jsTrim (s : String) : String :=
  String.mk (((s.data.dropWhile Char.isWhitespace).reverse.dropWhile
    Char.isWhitespace).reverse)

/-- Accumulator for splitting on whitespace runs. -/
def splitTokensAux : List Char → List Char → List String
  | [], acc => if acc.isEmpty then [] else [String.mk acc.reverse]
  | c :: rest, acc =>
    if Char.isWhitespace c then
      if acc.isEmpty then splitTokensAux rest []
      else String.mk acc.reverse :: splitTokensAux rest []
    else splitTokensAux rest (c :: acc)

/-- JavaScript `split(/\s+/)` on an already-trimmed string: the list of
maximal non-whitespace runs. -/
def splitTokens (s : String) : List String := splitTokensAux s.data []

/-- JavaScript `toLowerCase` (structurally, via the character map). -/
def jsToLower (s : String) : String := String.mk (s.data.map Char.toLower)

/-- Drop the first character (`slice(1)`), structurally. -/
def jsDrop1 (s : String) : String := String.mk (s.data.drop 1)

/-- Take the first n characters (`slice(0, n)`), structurally. -/
def jsTake (s : String) (n : Nat) : String := String.mk (s.data.take n)

/-- Whether the text starts with a slash. -/
def startsWithSlash (s : String) : Bool :=
  match s.data with
  | c :: _ => c = '/'
  | [] => false

/-- Property lookup (`v.key`); yields none (undefined) on non-objects. -/
def jLookup (v : J) (key : String) : Option J :=
  match v with
  | J.obj fields => (fields.find? (fun f => f.1 == key)).map (fun f => f.2)
  | _ => none

/-- Nullish filtering: both a missing field (none) and an explicit JSON
null behave as nullish for the `??` operator. -/
def jNullish : Option J → Option J
  | some J.null => none
  | some v => some v
  | none => none

/-- `v ?? dflt` rendered as text (the code passes the value to a
string-rendering sink). -/
def nullishText (v : Option J) (dflt : String) : String :=
  match jNullish v with
  | some w => jText w
  | none => dflt

/-- JavaScript truthiness (`Boolean(v)`). -/
def truthy : J → Bool
  | J.null => false
  | J.bool b => b
  | J.num n => n != 0
  | J.str s => s != ""
  | J.arr _ => true
  | J.obj _ => true

/-- `Array.isArray(v) ? v : []` for an optional field. -/
def arrOrEmpty : Option J → List J
  | some (J.arr items) => items
  | _ => []

/-- `x?.toFixed?.(3)` for an optional field: defined exactly when the
value is a number. -/
def toFixed3 : Option J → Option String
  | some (J.num n) => some (toString n ++ ".000")
  | _ => none

/-- `x?.slice?.(0, 200)` followed by template rendering: defined for
strings (prefix of length 200) and arrays (JS arrays also have `slice`). -/
def sliceOpt200 : Option J → Option String
  | some (J.str s) => some (jsTake s 200)
  | some (J.arr items) => some (jText (J.arr (items.take 200)))
  | _ => none

/-- `text || res.statusText`: the body text unless it is empty. -/
def orElseText (a b : String) : String :=
  if a = "" then b else a

/-- Message roles of the transcript (App.tsx line 16): "teacher" is the
operator, "student" the assistant. -/
inductive Role where
  | teacher : Role
  | student : Role
  | system : Role
deriving Repr, DecidableEq

/-- Teach status indicator (App.tsx line 17). -/
inductive TeachStatus where
  | idle : TeachStatus
  | learning : TeachStatus
  | learned : TeachStatus
deriving Repr, DecidableEq

/-- A transcript message.  The id and createdAt stamps of `createMessage`
(App.tsx lines 91-96) are produced from the clock and a random source and
carry no control-flow significance, so a message is modelled by its role
and text. -/
structure Msg where
  role : Role
  text : String
deriving Repr, DecidableEq

/-- Observable actions of the handlers, in program order. -/
inductive Event where
  | remoteCall : String → Event
  | fetchSessionsCall : Event
  | refreshResolved : Event
  | appendMsg : Msg → Event
  | replaceTranscript : List Msg → Event
  | clearPointer : Event
  | setStatus : TeachStatus → Event
  | armTimer : Nat → Event
  | cancelTimer : Event
  | acquireAudioHandle : Event
  | audioPlayStart : Event
deriving Repr, DecidableEq

/-- Whether an event is a network request. -/
def Event.isRemote : Event → Bool
  | Event.remoteCall _ => true
  | Event.fetchSessionsCall => true
  | _ => false

/-- Outcome of the single fetch an operation performs: `ok body` means
the response was ok and its JSON body parsed; `httpFail body statusText`
means a non-ok response whose body text was read; `netFail` means the
fetch (or reading the body) threw. -/
inductive FetchOutcome where
  | ok : J → FetchOutcome
  | httpFail : String → String → FetchOutcome
  | netFail : FetchOutcome

/-- A failed fetch (non-success status, network failure or parse failure). -/
def FetchOutcome.isFailure : FetchOutcome → Bool
  | FetchOutcome.ok _ => false
  | FetchOutcome.httpFail _ _ => true
  | FetchOutcome.netFail => true

/-- A fetch that produced a parsed success body. -/
def FetchOutcome.isSuccess : FetchOutcome → Bool
  | FetchOutcome.ok _ => true
  | _ => false

/-- Static slash-command catalog (App.tsx lines 37-88). -/
structure CommandDefinition where
  name : String
  usage : String
  description : String
deriving Repr, DecidableEq

/-- The COMMANDS catalog (App.tsx lines 37-88). -/
def COMMANDS : List CommandDefinition :=
  [ ⟨"topic", "/topic <new_topic>", "Switch the current lesson topic"⟩,
    ⟨"session", "/session new", "Start a brand-new session"⟩,
    ⟨"summary", "/summary", "Summarize the active session"⟩,
    ⟨"search_topic", "/search_topic <keywords>", "Search every stored memory for keywords"⟩,
    ⟨"all", "/all", "List every stored memory entry"⟩,
    ⟨"reset", "/reset", "Clear the entire local memory store"⟩,
    ⟨"help", "/help", "Display the command reference"⟩,
    ⟨"search", "/search <keywords>", "Legacy search on the active filters"⟩,
    ⟨"vectorsearch", "/vectorsearch <query>", "Combined semantic search across chat memory and documents"⟩,
    ⟨"documentvectorsearch", "/documentvectorsearch <query>", "Semantic search only within uploaded documents"⟩ ]

/-- The declared usage string of a catalog command. -/
def declaredUsage (name : String) : Option String :=
  (COMMANDS.find? (fun c => c.name == name)).map (fun c => c.usage)

/-- The component state touched by the orchestrator handlers
(App.tsx lines 107-128; audio state is modelled separately). -/
structure AppState where
  messages : List Msg
  input : String
  sessionId : Option String
  isSending : Bool
  showSuggestions : Bool
  commandQuery : String
  teachMode : Bool
  teachStatus : TeachStatus
  timerPending : Option Nat
deriving Repr, DecidableEq

/-- Append system messages to the transcript (the `appendSystem` /
`pushSystemMessage` helpers, App.tsx lines 203-205 and 690-695). -/
def appendSys (st : AppState) (texts : List String) : AppState × List Event :=
  let msgs := texts.map (fun t => Msg.mk Role.system t)
  ({ st with messages := st.messages ++ msgs }, msgs.map Event.appendMsg)

/-- Issue one remote call and append the resulting system feedback. -/
def remoteSys (endpoint : String) (st : AppState) (texts : List String) :
    AppState × List Event :=
  let msgs := texts.map (fun t => Msg.mk Role.system t)
  ({ st with messages := st.messages ++ msgs },
   Event.remoteCall endpoint :: msgs.map Event.appendMsg)

/-- handleNewChat (App.tsx lines 576-581): wholesale-replace the
transcript with one greeting, clear the pointer and input, close the
command palette. -/
def newChatGreeting : Msg := Msg.mk Role.system "Hello! I am ready to learn."

/-- State effect of handleNewChat (App.tsx lines 576-581). -/
def handleNewChat (st : AppState) : AppState :=
  { st with
    messages := [newChatGreeting]
    sessionId := none
    input := ""
    showSuggestions := false
    commandQuery := "" }

/-- Split a raw slash command into its lower-case-normalizable first
token and argument tokens (App.tsx lines 679-688): strip the slash, trim,
bail out on empty remainder, else split on whitespace runs. -/
def parseCommand (rawCommand : String) : Option (String × List String) :=
  let stripped := jsTrim (jsDrop1 rawCommand)
  if stripped = "" then none
  else
    let parts := splitTokens stripped
    some (parts.headD "", parts.tail)

/-- The /topic branch (App.tsx lines 697-719). -/
def topicBranch (args : List String) (st : AppState) (outcome : FetchOutcome) :
    AppState × List Event :=
  let topic := jsTrim (String.intercalate " " args)
  if topic = "" then
    appendSys st ["Usage: /topic <new_topic>"]
  else
    match outcome with
    | FetchOutcome.ok data =>
        let fallback := "Topic set to \x27" ++ topic ++ "\x27."
        remoteSys "topic" st [nullishText (jLookup data "message") fallback]
    | FetchOutcome.httpFail body statusText =>
        remoteSys "topic" st ["Topic update failed: " ++ orElseText body statusText]
    | FetchOutcome.netFail =>
        remoteSys "topic" st ["Could not reach the topic endpoint."]

/-- The /session branch (App.tsx lines 721-743).  On success the handler
resets the chat (handleNewChat), adopts the returned session id and then
appends the confirmation system message. -/
def sessionBranch (args : List String) (st : AppState) (outcome : FetchOutcome) :
    AppState × List Event :=
  let sub := jsToLower (args.headD "")
  if sub = "new" then
    match outcome with
    | FetchOutcome.ok data =>
        let st1 := handleNewChat st
        let sid := (jNullish (jLookup data "session_id")).map jText
        let st2 := { st1 with sessionId := sid }
        let text := nullishText (jLookup data "message") "New session started."
        let m := Msg.mk Role.system text
        ({ st2 with messages := st2.messages ++ [m] },
         [Event.remoteCall "session", Event.replaceTranscript [newChatGreeting],
          Event.clearPointer, Event.appendMsg m])
    | FetchOutcome.httpFail body statusText =>
        remoteSys "session" st ["Session start failed: " ++ orElseText body statusText]
    | FetchOutcome.netFail =>
        remoteSys "session" st ["Could not start a new session."]
  else
    appendSys st ["Usage: /session new"]

/-- The /summary branch (App.tsx lines 745-767). -/
def summaryBranch (st : AppState) (outcome : FetchOutcome) :
    AppState × List Event :=
  match st.sessionId with
  | none => appendSys st ["No active session. Use /session new to begin."]
  | some _ =>
    match outcome with
    | FetchOutcome.ok data =>
        let summaryText :=
          match jLookup data "summary" with
          | some (J.str s) => s
          | some v => stringify v
          | none => "undefined"
        remoteSys "summary" st ["Session summary:\n\n" ++ summaryText]
    | FetchOutcome.httpFail body statusText =>
        remoteSys "summary" st ["Summary failed: " ++ orElseText body statusText]
    | FetchOutcome.netFail =>
        remoteSys "summary" st ["Could not retrieve the summary."]

/-- Format one /search_topic hit (App.tsx lines 790-795). -/
def formatTopicHit (index : Nat) (item : J) : String :=
  toString (index + 1) ++ ". " ++ nullishText (jLookup item "memory") "—" ++
    "\n   score: " ++ (toFixed3 (jLookup item "score")).getD "?"

/-- The /search_topic branch (App.tsx lines 769-802). -/
def searchTopicBranch (args : List String) (st : AppState) (outcome : FetchOutcome) :
    AppState × List Event :=
  let query := jsTrim (String.intercalate " " args)
  if query = "" then
    appendSys st ["Usage: /search_topic <keywords>"]
  else
    match outcome with
    | FetchOutcome.ok data =>
        let hits := arrOrEmpty (jLookup data "results")
        if hits.isEmpty then
          remoteSys "search_topic" st ["No memories matched “" ++ query ++ "”."]
        else
          let formatted := String.intercalate "\n\n" (hits.mapIdx formatTopicHit)
          remoteSys "search_topic" st
            ["Memories mentioning “" ++ query ++ "”:\n\n" ++ formatted]
    | FetchOutcome.httpFail body statusText =>
        remoteSys "search_topic" st ["Topic search failed: " ++ orElseText body statusText]
    | FetchOutcome.netFail =>
        remoteSys "search_topic" st ["Could not reach the search endpoint."]

/-- `item?.memory ?? item?.value ?? JSON.stringify(item)` (App.tsx
lines 830-832 and 933-934). -/
def memoryOrValueOrJson (item : J) : String :=
  match jNullish (jLookup item "memory") with
  | some v => jText v
  | none =>
    match jNullish (jLookup item "value") with
    | some v => jText v
    | none => stringify item

/-- The /search branch (App.tsx lines 804-841): the hit list is
`data.results.results` when that is an array, else `data.results` when
that is an array, else empty. -/
def searchBranch (args : List String) (st : AppState) (outcome : FetchOutcome) :
    AppState × List Event :=
  let query := jsTrim (String.intercalate " " args)
  if query = "" then
    appendSys st ["Usage: /search <keywords>"]
  else
    match outcome with
    | FetchOutcome.ok data =>
        let hits :=
          match (jLookup data "results").bind (fun r => jLookup r "results") with
          | some (J.arr items) => items
          | _ =>
            match jLookup data "results" with
            | some (J.arr items) => items
            | _ => []
        if hits.isEmpty then
          remoteSys "search" st ["No memories matched “" ++ query ++ "”."]
        else
          let formatted := String.intercalate "\n\n"
            (hits.mapIdx (fun i item => toString (i + 1) ++ ". " ++ memoryOrValueOrJson item))
          remoteSys "search" st
            ["Search results for “" ++ query ++ "”:\n\n" ++ formatted]
    | FetchOutcome.httpFail body statusText =>
        remoteSys "search" st ["Search failed: " ++ orElseText body statusText]
    | FetchOutcome.netFail =>
        remoteSys "search" st ["Could not reach the search API."]

/-- Format one /vectorsearch hit (App.tsx lines 864-871). -/
def formatVectorHit (index : Nat) (item : J) : String :=
  toString (index + 1) ++ ". [" ++ nullishText (jLookup item "source") "unknown" ++ "] " ++
    (sliceOpt200 (jLookup item "memory")).getD "—" ++ "... (score: " ++
    (toFixed3 (jLookup item "score")).getD "?" ++ ")"

/-- The /vectorsearch branch (App.tsx lines 843-878). -/
def vectorSearchBranch (args : List String) (st : AppState) (outcome : FetchOutcome) :
    AppState × List Event :=
  let query := jsTrim (String.intercalate " " args)
  if query = "" then
    appendSys st ["Usage: /vectorsearch <query>"]
  else
    match outcome with
    | FetchOutcome.ok data =>
        let results := arrOrEmpty (jLookup data "combined_results")
        if results.isEmpty then
          remoteSys "vectorsearch" st ["No vector hits for “" ++ query ++ "”."]
        else
          let formatted := String.intercalate "\n\n" (results.mapIdx formatVectorHit)
          remoteSys "vectorsearch" st
            ["Vector search results for “" ++ query ++ "”:\n\n" ++ formatted]
    | FetchOutcome.httpFail body statusText =>
        remoteSys "vectorsearch" st ["Vector search failed: " ++ orElseText body statusText]
    | FetchOutcome.netFail =>
        remoteSys "vectorsearch" st ["Could not reach the vectorsearch endpoint."]

/-- Format one /documentvectorsearch hit (App.tsx lines 901-907). -/
def formatDocumentHit (index : Nat) (item : J) : String :=
  toString (index + 1) ++ ". " ++
    nullishText ((jLookup item "metadata").bind (fun m => jLookup m "title")) "Untitled" ++
    " — " ++ (sliceOpt200 (jLookup item "memory")).getD "—" ++ "... (score: " ++
    (toFixed3 (jLookup item "score")).getD "?" ++ ")"

/-- The /documentvectorsearch branch (App.tsx lines 880-915). -/
def documentVectorSearchBranch (args : List String) (st : AppState)
    (outcome : FetchOutcome) : AppState × List Event :=
  let query := jsTrim (String.intercalate " " args)
  if query = "" then
    appendSys st ["Usage: /documentvectorsearch <query>"]
  else
    match outcome with
    | FetchOutcome.ok data =>
        let results := arrOrEmpty (jLookup data "results")
        if results.isEmpty then
          remoteSys "documentvectorsearch" st ["No document matches for “" ++ query ++ "”."]
        else
          let formatted := String.intercalate "\n\n" (results.mapIdx formatDocumentHit)
          remoteSys "documentvectorsearch" st
            ["Document vector search results for “" ++ query ++ "”:\n\n" ++ formatted]
    | FetchOutcome.httpFail body statusText =>
        remoteSys "documentvectorsearch" st
          ["Document vector search failed: " ++ orElseText body statusText]
    | FetchOutcome.netFail =>
        remoteSys "documentvectorsearch" st
          ["Could not reach the documentvectorsearch endpoint."]

/-- Format one /all entry (App.tsx lines 931-937): the memory text with
an optional truthiness-gated metadata-type suffix. -/
def formatAllEntry (index : Nat) (item : J) : String :=
  let meta :=
    match (jLookup item "metadata").bind (fun m => jLookup m "type") with
    | some v => if truthy v then " (" ++ jText v ++ ")" else ""
    | none => ""
  toString (index + 1) ++ ". " ++ memoryOrValueOrJson item ++ meta

/-- The /all branch (App.tsx lines 917-944). -/
def allBranch (st : AppState) (outcome : FetchOutcome) : AppState × List Event :=
  match outcome with
  | FetchOutcome.ok data =>
      let memories := arrOrEmpty (jLookup data "memories")
      if memories.isEmpty then
        remoteSys "all" st ["No stored memories yet."]
      else
        let formatted := String.intercalate "\n\n" (memories.mapIdx formatAllEntry)
        remoteSys "all" st ["Complete memory listing:\n\n" ++ formatted]
  | FetchOutcome.httpFail body statusText =>
      remoteSys "all" st ["Fetch failed: " ++ orElseText body statusText]
  | FetchOutcome.netFail =>
      remoteSys "all" st ["Could not fetch stored memories."]

/-- The /reset branch (App.tsx lines 946-961). -/
def resetBranch (st : AppState) (outcome : FetchOutcome) : AppState × List Event :=
  match outcome with
  | FetchOutcome.ok data =>
      remoteSys "reset" st [nullishText (jLookup data "message") "Memory reset complete."]
  | FetchOutcome.httpFail body statusText =>
      remoteSys "reset" st ["Reset failed: " ++ orElseText body statusText]
  | FetchOutcome.netFail =>
      remoteSys "reset" st ["Could not reach the reset endpoint."]

/-- The /help text (App.tsx lines 963-967). -/
def helpText : String :=
  String.intercalate "\n" (COMMANDS.map (fun cmd => cmd.usage ++ " — " ++ cmd.description))

/-- The unknown-command feedback (App.tsx line 969). -/
def unknownCommandMsg (normalized : String) : Msg :=
  Msg.mk Role.system ("Unknown command “/" ++ normalized ++ "”. Try /help.")

/-- The dispatch of handleCommand on the lower-cased first token
(App.tsx lines 688-969), factored out of the parsing wrapper. -/
def handleNamed (normalized : String) (args : List String) (st : AppState)
    (outcome : FetchOutcome) : AppState × List Event :=
  if normalized = "topic" then topicBranch args st outcome
  else if normalized = "session" then sessionBranch args st outcome
  else if normalized = "summary" then summaryBranch st outcome
  else if normalized = "search_topic" then searchTopicBranch args st outcome
  else if normalized = "search" then searchBranch args st outcome
  else if normalized = "vectorsearch" then vectorSearchBranch args st outcome
  else if normalized = "documentvectorsearch" then documentVectorSearchBranch args st outcome
  else if normalized = "all" then allBranch st outcome
  else if normalized = "reset" then resetBranch st outcome
  else if normalized = "help" then appendSys st [helpText]
  else
    ({ st with messages := st.messages ++ [unknownCommandMsg normalized] },
     [Event.appendMsg (unknownCommandMsg normalized)])

/-- handleCommand (App.tsx lines 678-970): strip the slash, prompt /help
on empty input, else dispatch on the lower-cased first token.  The
outcome of the (at most one) fetch the chosen branch performs is passed
explicitly. -/
def handleCommand (rawCommand : String) (st : AppState) (outcome : FetchOutcome) :
    AppState × List Event :=
  match parseCommand rawCommand with
  | none => appendSys st ["Type /help to see the available commands."]
  | some (commandToken, args) => handleNamed (jsToLower commandToken) args st outcome

/-- `Boolean(data.silent)` of a success body (App.tsx line 645). -/
def chatSilent (data : J) : Bool :=
  match jLookup data "silent" with
  | some v => truthy v
  | none => false

/-- `typeof data.response === "string" ? data.response : ""`
(App.tsx line 646). -/
def chatRawResponse (data : J) : String :=
  match jLookup data "response" with
  | some (J.str s) => s
  | _ => ""

/-- The fallback assistant text when the reply trims to empty
(App.tsx lines 647-649). -/
def noResponseFallback : String := "I did not receive a response from the model."

/-- sendPrompt (App.tsx lines 607-675): arm the teach indicator, echo the
operator, go Sending, issue the chat call, then in the guaranteed
cleanup return to Idle and settle the teach indicator.  On a success
body the handler adopts the returned session id, appends the assistant
reply unless silent, and fires (without awaiting) a session-list
refresh. -/
def sendPrompt (prompt : String) (st : AppState) (outcome : FetchOutcome) :
    AppState × List Event :=
  let teachModeDuringSend := st.teachMode
  let preEvents :=
    if teachModeDuringSend then
      (if st.timerPending.isSome then [Event.cancelTimer] else []) ++
        [Event.setStatus TeachStatus.learning]
    else if st.teachStatus ≠ TeachStatus.idle then [Event.setStatus TeachStatus.idle]
    else []
  let st1 :=
    if teachModeDuringSend then
      { st with timerPending := none, teachStatus := TeachStatus.learning }
    else if st.teachStatus ≠ TeachStatus.idle then
      { st with teachStatus := TeachStatus.idle }
    else st
  let teacherMsg := Msg.mk Role.teacher prompt
  let st2 := { st1 with messages := st1.messages ++ [teacherMsg], isSending := true }
  let body :=
    match outcome with
    | FetchOutcome.httpFail bodyText statusText =>
        let m := Msg.mk Role.system ("Server error: " ++ orElseText bodyText statusText)
        (({ st2 with messages := st2.messages ++ [m] } : AppState),
         [Event.remoteCall "chat", Event.appendMsg m], false)
    | FetchOutcome.netFail =>
        let m := Msg.mk Role.system "Connection error. Confirm the FastAPI server is running."
        (({ st2 with messages := st2.messages ++ [m] } : AppState),
         [Event.remoteCall "chat", Event.appendMsg m], false)
    | FetchOutcome.ok data =>
        let sid :=
          match jNullish (jLookup data "session_id") with
          | some v => some (jText v)
          | none => st2.sessionId
        let silent := chatSilent data
        let trimmedResponse := jsTrim (chatRawResponse data)
        let assistantReply :=
          if trimmedResponse.length > 0 then trimmedResponse else noResponseFallback
        let stA := { st2 with sessionId := sid }
        let withReply :=
          if silent then (stA, ([] : List Event))
          else
            let m := Msg.mk Role.student assistantReply
            (({ stA with messages := stA.messages ++ [m] } : AppState),
             [Event.appendMsg m])
        (withReply.1,
         Event.remoteCall "chat" :: withReply.2 ++ [Event.fetchSessionsCall],
         silent)
  let st3 := body.1
  let silentResponse := body.2.2
  let st4 := { st3 with isSending := false }
  let finalPair :=
    if teachModeDuringSend then
      if silentResponse then
        (({ st4 with teachStatus := TeachStatus.learned, timerPending := some 2500 } : AppState),
         [Event.setStatus TeachStatus.learned, Event.armTimer 2500])
      else
        (({ st4 with teachStatus := TeachStatus.idle } : AppState),
         [Event.setStatus TeachStatus.idle])
    else (st4, ([] : List Event))
  (finalPair.1,
   preEvents ++ [Event.appendMsg teacherMsg] ++ body.2.1 ++ finalPair.2)

/-- The teach-status timeout callback (App.tsx lines 666-669): when the
armed timer fires, the indicator returns to idle and the timer handle is
cleared. -/
def timerFire (st : AppState) : AppState :=
  match st.timerPending with
  | some _ => { st with teachStatus := TeachStatus.idle, timerPending := none }
  | none => st

/-- The teach-mode reset effect (App.tsx lines 552-560): whenever teach
mode is off and the indicator is not idle, force idle and cancel any
pending auto-reset timer. -/
def teachModeOffReset (st : AppState) : AppState × List Event :=
  if st.teachMode = false ∧ st.teachStatus ≠ TeachStatus.idle then
    ({ st with teachStatus := TeachStatus.idle, timerPending := none },
     Event.setStatus TeachStatus.idle ::
       (if st.timerPending.isSome then [Event.cancelTimer] else []))
  else (st, [])

/-- Turning teach mode off: the remote boolean becomes false and the
reset effect of App.tsx lines 552-560 runs. -/
def turnTeachModeOff (st : AppState) : AppState × List Event :=
  teachModeOffReset { st with teachMode := false }

/-- The system notice appended when loading a session fails
(App.tsx line 225). -/
def sessionLoadFailMsg : Msg := Msg.mk Role.system "Failed to load session."

/-- handleSelectSession (App.tsx lines 208-229): fetch the full history;
on success bind the pointer and wholesale-replace the transcript
(assistant entries normalized to the student role, everything else to
teacher); on any failure leave pointer and prior transcript untouched
and append one system message. -/
def handleSelectSession (selectedSessionId : String) (st : AppState)
    (outcome : FetchOutcome) : AppState × List Event :=
  match outcome with
  | FetchOutcome.ok data =>
      let rawMessages := arrOrEmpty (jLookup data "messages")
      let msgs := rawMessages.map (fun m =>
        let role :=
          match jLookup m "role" with
          | some (J.str r) => if r = "assistant" then Role.student else Role.teacher
          | _ => Role.teacher
        let text :=
          match jNullish (jLookup m "content") with
          | some v => jText v
          | none => ""
        Msg.mk role text)
      ({ st with sessionId := some selectedSessionId, messages := msgs },
       [Event.remoteCall "session_messages", Event.replaceTranscript msgs])
  | FetchOutcome.httpFail _ _ =>
      ({ st with messages := st.messages ++ [sessionLoadFailMsg] },
       [Event.remoteCall "session_messages", Event.appendMsg sessionLoadFailMsg])
  | FetchOutcome.netFail =>
      ({ st with messages := st.messages ++ [sessionLoadFailMsg] },
       [Event.remoteCall "session_messages", Event.appendMsg sessionLoadFailMsg])

/-- The placeholder shown after deleting the active session
(App.tsx lines 369-374). -/
def sessionDeletedPlaceholder : Msg :=
  Msg.mk Role.system
    "Session deleted. Start a new chat or pick another conversation from the list."

/-- The system notice appended when the delete call fails
(App.tsx line 378). -/
def deleteFailMsg : Msg := Msg.mk Role.system "Failed to delete session."

/-- handleDeleteSession (App.tsx lines 363-380) combined with
deleteSession of useSessions.ts (lines 31-35): after the confirmation
gate, the DELETE request runs and, when it succeeds, deleteSession
awaits fetchSessions — the list refresh resolves inside that await
(fetchSessions catches its own failures, so it always resolves) —
before control returns to handleDeleteSession, which only then clears
the pointer and resets the transcript when the deleted session was
active.  A failed DELETE throws and is caught, appending one system
notice. -/
def handleDeleteSession (sessionIdToDelete : String) (st : AppState)
    (confirmed : Bool) (deleteOk : Bool) : AppState × List Event :=
  if confirmed = false then (st, [])
  else if deleteOk then
    let evs := [Event.remoteCall "delete_session", Event.fetchSessionsCall,
                Event.refreshResolved]
    if st.sessionId = some sessionIdToDelete then
      ({ st with sessionId := none, messages := [sessionDeletedPlaceholder] },
       evs ++ [Event.clearPointer, Event.replaceTranscript [sessionDeletedPlaceholder]])
    else (st, evs)
  else
    ({ st with messages := st.messages ++ [deleteFailMsg] },
     [Event.remoteCall "delete_session", Event.appendMsg deleteFailMsg])

/-- State of the useSessions hook (useSessions.ts lines 12-13): the
cached summary list (kept as raw JSON values, as the hook stores the
server items unvalidated) and the refreshing flag. -/
structure SessionsState where
  sessions : List J
  refreshing : Bool

/-- fetchSessions (useSessions.ts lines 15-29): set refreshing, then on
a parsed success body replace the cache wholesale with `data.sessions`
when it is an array (else the empty list) and return that list; any
non-ok status or network/parse error is caught, leaves the cache
untouched and returns the empty list; the finally block resets
refreshing on every exit path. -/
def fetchSessions (st : SessionsState) (outcome : FetchOutcome) :
    SessionsState × List J :=
  match outcome with
  | FetchOutcome.ok data =>
      let list := arrOrEmpty (jLookup data "sessions")
      ({ sessions := list, refreshing := false }, list)
  | FetchOutcome.httpFail _ _ => ({ st with refreshing := false }, [])
  | FetchOutcome.netFail => ({ st with refreshing := false }, [])

/-- Audio-related flags of the component (App.tsx lines 112 and
124-127) plus whether a MediaRecorder handle is held (recorderRef,
App.tsx line 198). -/
structure AudioState where
  isRecording : Bool
  isTranscribing : Bool
  isPlaying : Bool
  isSending : Bool
  hasRecorderHandle : Bool
  audioError : Option String
deriving Repr, DecidableEq

/-- Outcome of attempting to acquire the microphone: granted, or denied
with the surfaced error string (missing capability or rejected
permission). -/
inductive CaptureOutcome where
  | granted : CaptureOutcome
  | denied : String → CaptureOutcome
deriving Repr, DecidableEq

/-- startRecording (App.tsx lines 411-473): a no-op while Recording or
Transcribing; otherwise clear the audio error and acquire the input
handle, entering Recording on success; a denial surfaces the error
string without acquiring a handle. -/
def startRecording (st : AudioState) (outcome : CaptureOutcome) :
    AudioState × List Event :=
  if st.isRecording || st.isTranscribing then (st, [])
  else
    match outcome with
    | CaptureOutcome.granted =>
        ({ st with audioError := none, isRecording := true, hasRecorderHandle := true },
         [Event.acquireAudioHandle])
    | CaptureOutcome.denied msg =>
        ({ st with isRecording := false, audioError := some msg }, [])

/-- Outcome of the synthesis request in playLatestReply: playback
started, a non-ok status (its status code as text), or a thrown error
with its message. -/
inductive PlayOutcome where
  | started : PlayOutcome
  | httpFail : String → PlayOutcome
  | netFail : String → PlayOutcome
deriving Repr, DecidableEq

/-- playLatestReply (App.tsx lines 487-542): a no-op while Playing,
Sending or Transcribing; with no assistant reply available it only sets
the error string; otherwise it clears the error, enters Playing and
issues one synthesis request, leaving Playing again on failure. -/
def playLatestReply (st : AudioState) (latestAssistantText : Option String)
    (outcome : PlayOutcome) : AudioState × List Event :=
  if st.isPlaying || st.isSending || st.isTranscribing then (st, [])
  else
    match latestAssistantText with
    | none => ({ st with audioError := some "No assistant reply available" }, [])
    | some _ =>
      match outcome with
      | PlayOutcome.started =>
          ({ st with audioError := none, isPlaying := true },
           [Event.remoteCall "tts", Event.audioPlayStart])
      | PlayOutcome.httpFail status =>
          ({ st with audioError := some ("Speech playback failed (" ++ status ++ ")"),
                     isPlaying := false },
           [Event.remoteCall "tts"])
      | PlayOutcome.netFail msg =>
          ({ st with audioError := some msg, isPlaying := false },
           [Event.remoteCall "tts"])

/-- processInput (App.tsx lines 584-598): ignore blank input, clear the
input box, then route a leading slash to handleCommand and everything
else to sendPrompt. -/
def processInput (rawInput : String) (st : AppState) (outcome : FetchOutcome) :
    AppState × List Event :=
  let trimmed := jsTrim rawInput
  if trimmed = "" then (st, [])
  else
    let st0 := { st with input := "" }
    if startsWithSlash trimmed then
      handleCommand trimmed
        { st0 with showSuggestions := false, commandQuery := "" } outcome
    else
      sendPrompt trimmed
        { st0 with showSuggestions := false, commandQuery := "" } outcome

/-- Index of the first event satisfying a predicate. -/
def firstIdxAux (p : Event → Bool) : List Event → Option Nat
  | [] => none
  | e :: rest => if p e then some 0 else (firstIdxAux p rest).map (fun n => n + 1)

/-- Whether the first occurrence of one event strictly precedes the
first occurrence of another in a trace (false when either is absent). -/
def eventBefore (e1 e2 : Event) (evs : List Event) : Bool :=
  match firstIdxAux (fun e => e = e1) evs, firstIdxAux (fun e => e = e2) evs with
  | some i, some j => decide (i < j)
  | _, _ => false

/-- Whether an event is a transcript replacement. -/
def isReplaceTranscriptE : Event → Bool
  | Event.replaceTranscript _ => true
  | _ => false

/-- Whether the first transcript reset in a trace strictly precedes the
first resolution of a session-list refresh. -/
def resetBeforeRefreshB (evs : List Event) : Bool :=
  match firstIdxAux isReplaceTranscriptE evs,
        firstIdxAux (fun e => e = Event.refreshResolved) evs with
  | some i, some j => decide (i < j)
  | _, _ => false

/-- A quiescent component state used to instantiate theorems. -/
def baseState : AppState :=
  ⟨[], "", none, false, false, "", false, TeachStatus.idle, none⟩

/-- The base state with an active session bound. -/
def stWithActive : AppState := { baseState with sessionId := some "s1" }

/-- The delete-active-session trace: delete request, then the awaited
list refresh, and only then the pointer clear and transcript reset. -/
def deleteActiveTrace : List Event :=
  [Event.remoteCall "delete_session", Event.fetchSessionsCall, Event.refreshResolved,
   Event.clearPointer, Event.replaceTranscript [sessionDeletedPlaceholder]]

/-- C1: the claim asserts the pointer clear and transcript reset happen
before the session-list refresh resolves.  In the code, deleteSession
(useSessions.ts lines 31-35) awaits fetchSessions before returning, and
handleDeleteSession (App.tsx lines 363-380) clears the pointer and
resets the transcript only after that await returns — so on a confirmed
successful delete of the active session the refresh resolves first:
the reset-before-refresh ordering is false on a concrete run. -/
theorem c1_counterexample :
    (handleDeleteSession "s1" stWithActive true true).2 = deleteActiveTrace ∧
    resetBeforeRefreshB (handleDeleteSession "s1" stWithActive true true).2 = false := by
  decide

/-- C1 (amended): on every confirmed successful delete of the active
session, the delete request and the awaited session-list refresh resolve
first, and only then is the active-session pointer cleared and the
transcript reset to exactly one system placeholder message; the final
state has a null pointer and the single placeholder transcript. -/
theorem c1_amended (sid : String) (st : AppState) (h : st.sessionId = some sid) :
    handleDeleteSession sid st true true =
      ({ st with sessionId := none, messages := [sessionDeletedPlaceholder] },
       deleteActiveTrace) ∧
    eventBefore Event.refreshResolved Event.clearPointer
      (handleDeleteSession sid st true true).2 = true := by
  have h1 : handleDeleteSession sid st true true =
      ({ st with sessionId := none, messages := [sessionDeletedPlaceholder] },
       deleteActiveTrace) := by
    simp [handleDeleteSession, h, deleteActiveTrace]
  refine ⟨h1, ?_⟩
  rw [h1]
  show eventBefore Event.refreshResolved Event.clearPointer deleteActiveTrace = true
  decide

/-- Witness for c1_amended at a concrete active session. -/
theorem c1_amended_witness :
    handleDeleteSession "s1" stWithActive true true =
      ({ stWithActive with sessionId := none, messages := [sessionDeletedPlaceholder] },
       deleteActiveTrace) ∧
    eventBefore Event.refreshResolved Event.clearPointer
      (handleDeleteSession "s1" stWithActive true true).2 = true :=
  c1_amended "s1" stWithActive rfl

/-- C7: every session selection whose history fetch fails (non-success
status, network failure or parse failure) leaves the prior transcript
and the active-session pointer unchanged and appends exactly one system
message. -/
theorem c7_select_failure (sid : String) (st : AppState) (outcome : FetchOutcome)
    (hf : outcome.isFailure = true) :
    (handleSelectSession sid st outcome).1.sessionId = st.sessionId ∧
    (handleSelectSession sid st outcome).1.messages = st.messages ++ [sessionLoadFailMsg] ∧
    (handleSelectSession sid st outcome).2 =
      [Event.remoteCall "session_messages", Event.appendMsg sessionLoadFailMsg] := by
  cases outcome <;> simp_all [handleSelectSession, FetchOutcome.isFailure]

/-- Witness for c7_select_failure on a server-error outcome. -/
theorem c7_select_failure_witness :
    (handleSelectSession "s1" stWithActive (FetchOutcome.httpFail "boom" "500")).1.sessionId =
      stWithActive.sessionId ∧
    (handleSelectSession "s1" stWithActive (FetchOutcome.httpFail "boom" "500")).1.messages =
      stWithActive.messages ++ [sessionLoadFailMsg] ∧
    (handleSelectSession "s1" stWithActive (FetchOutcome.httpFail "boom" "500")).2 =
      [Event.remoteCall "session_messages", Event.appendMsg sessionLoadFailMsg] :=
  c7_select_failure "s1" stWithActive (FetchOutcome.httpFail "boom" "500") rfl

/-- An audio state that is currently Recording (with a held handle). -/
def recordingAudioState : AudioState := ⟨true, false, false, false, true, none⟩

/-- C8: the claim asserts Recording, Transcribing and Playing are fully
mutually exclusive.  The guard of playLatestReply (App.tsx line 488)
checks isPlaying, isSending and isTranscribing but not isRecording, so
starting playback while Recording is not a no-op: it issues the
synthesis request and the state ends up Recording and Playing at once. -/
theorem c8_counterexample :
    (playLatestReply recordingAudioState (some "hello") PlayOutcome.started).1.isRecording = true ∧
    (playLatestReply recordingAudioState (some "hello") PlayOutcome.started).1.isPlaying = true ∧
    (playLatestReply recordingAudioState (some "hello") PlayOutcome.started).2 =
      [Event.remoteCall "tts", Event.audioPlayStart] := by
  decide

/-- C8 (amended): starting a second capture while Recording or
Transcribing is a no-op (state unchanged, no handle acquired, no
events), and starting playback while Playing, Sending or Transcribing is
a no-op; the guards do not, however, exclude playback while Recording or
capture while Playing. -/
theorem c8_amended (st : AudioState) (capOut : CaptureOutcome)
    (latest : Option String) (playOut : PlayOutcome) :
    ((st.isRecording = true ∨ st.isTranscribing = true) →
      startRecording st capOut = (st, [])) ∧
    ((st.isPlaying = true ∨ st.isSending = true ∨ st.isTranscribing = true) →
      playLatestReply st latest playOut = (st, [])) := by
  constructor
  · intro h
    rcases h with h | h <;> simp [startRecording, h]
  · intro h
    rcases h with h | h | h <;> simp [playLatestReply, h]

/-- Witness for c8_amended on a state that is Recording and
Transcribing. -/
theorem c8_amended_witness :
    startRecording ⟨true, true, false, false, true, none⟩ CaptureOutcome.granted =
      (⟨true, true, false, false, true, none⟩, []) ∧
    playLatestReply ⟨true, true, false, false, true, none⟩ (some "x") PlayOutcome.started =
      (⟨true, true, false, false, true, none⟩, []) := by
  have h := c8_amended ⟨true, true, false, false, true, none⟩ CaptureOutcome.granted
    (some "x") PlayOutcome.started
  exact ⟨h.1 (Or.inl rfl), h.2 (Or.inr (Or.inr rfl))⟩

/-- C9: for every chat-send whose success body has an absent,
non-string or trims-to-empty `response` field and whose `silent` flag is
not set, the appended assistant message carries exactly the fallback
text "I did not receive a response from the model." (after the operator
echo). -/
theorem c9_empty_response_fallback (prompt : String) (st : AppState) (data : J)
    (hresp : jsTrim (chatRawResponse data) = "")
    (hsilent : chatSilent data = false) :
    (sendPrompt prompt st (FetchOutcome.ok data)).1.messages =
      st.messages ++ [Msg.mk Role.teacher prompt, Msg.mk Role.student noResponseFallback] := by
  simp only [sendPrompt, hresp, hsilent]
  split_ifs <;> simp_all

/-- Witness for c9_empty_response_fallback on an empty success body. -/
theorem c9_empty_response_fallback_witness :
    (sendPrompt "hi" baseState (FetchOutcome.ok (J.obj []))).1.messages =
      baseState.messages ++ [Msg.mk Role.teacher "hi", Msg.mk Role.student noResponseFallback] :=
  c9_empty_response_fallback "hi" baseState (J.obj []) (by decide) (by decide)

/-- C10: a session-list fetch leaves the refreshing flag false on every
exit path, and on any failed fetch (non-success status or network/parse
error) the cached list is unchanged and the empty list is returned. -/
theorem c10_fetch_sessions (st : SessionsState) (outcome : FetchOutcome) :
    (fetchSessions st outcome).1.refreshing = false ∧
    (outcome.isFailure = true →
      (fetchSessions st outcome).1.sessions = st.sessions ∧
      (fetchSessions st outcome).2 = []) := by
  cases outcome <;> simp [fetchSessions, FetchOutcome.isFailure]

/-- Witness for c10_fetch_sessions on a network failure. -/
theorem c10_fetch_sessions_witness :
    (fetchSessions ⟨[], true⟩ FetchOutcome.netFail).1.refreshing = false ∧
    (fetchSessions ⟨[], true⟩ FetchOutcome.netFail).1.sessions = [] ∧
    (fetchSessions ⟨[], true⟩ FetchOutcome.netFail).2 = [] := by
  have h := c10_fetch_sessions ⟨[], true⟩ FetchOutcome.netFail
  exact ⟨h.1, (h.2 rfl).1, (h.2 rfl).2⟩

/-- A handler result only adds system-role messages: every message of
the resulting transcript either was already present or is a system
message, and every append event carries a system message. -/
def OnlySystemAdds (st : AppState) (out : AppState × List Event) : Prop :=
  (∀ m ∈ out.1.messages, m ∈ st.messages ∨ m.role = Role.system) ∧
  (∀ e ∈ out.2, ∀ m, e = Event.appendMsg m → m.role = Role.system)

theorem onlySystemAdds_appendSys (st : AppState) (texts : List String) :
    OnlySystemAdds st (appendSys st texts) := by
  constructor
  · intro m hm
    simp only [appendSys, List.mem_append] at hm
    rcases hm with hm | hm
    · exact Or.inl hm
    · right
      rcases List.mem_map.mp hm with ⟨t, _, rfl⟩
      rfl
  · intro e he m hem
    simp only [appendSys] at he
    rcases List.mem_map.mp he with ⟨m2, hm2, rfl⟩
    rcases List.mem_map.mp hm2 with ⟨t, _, rfl⟩
    cases hem
    rfl

theorem onlySystemAdds_remoteSys (endpoint : String) (st : AppState)
    (texts : List String) : OnlySystemAdds st (remoteSys endpoint st texts) := by
  constructor
  · intro m hm
    simp only [remoteSys, List.mem_append] at hm
    rcases hm with hm | hm
    · exact Or.inl hm
    · right
      rcases List.mem_map.mp hm with ⟨t, _, rfl⟩
      rfl
  · intro e he m hem
    simp only [remoteSys, List.mem_cons] at he
    rcases he with rfl | he
    · cases hem
    · rcases List.mem_map.mp he with ⟨m2, hm2, rfl⟩
      rcases List.mem_map.mp hm2 with ⟨t, _, rfl⟩
      cases hem
      rfl

theorem onlySystemAdds_topicBranch (args : List String) (st : AppState)
    (outcome : FetchOutcome) : OnlySystemAdds st (topicBranch args st outcome) := by
  simp only [topicBranch]
  split
  · exact onlySystemAdds_appendSys st _
  · split
    · exact onlySystemAdds_remoteSys _ st _
    · exact onlySystemAdds_remoteSys _ st _
    · exact onlySystemAdds_remoteSys _ st _

theorem onlySystemAdds_sessionBranch (args : List String) (st : AppState)
    (outcome : FetchOutcome) : OnlySystemAdds st (sessionBranch args st outcome) := by
  simp only [sessionBranch, handleNewChat]
  split
  · split
    · constructor
      · intro m hm
        right
        simp only [List.mem_append, List.mem_singleton] at hm
        rcases hm with rfl | rfl
        · rfl
        · rfl
      · intro e he m hem
        simp only [List.mem_cons, List.not_mem_nil, or_false] at he
        rcases he with rfl | rfl | rfl | rfl
        · cases hem
        · cases hem
        · cases hem
        · cases hem
          rfl
    · exact onlySystemAdds_remoteSys _ st _
    · exact onlySystemAdds_remoteSys _ st _
  · exact onlySystemAdds_appendSys st _

theorem onlySystemAdds_summaryBranch (st : AppState) (outcome : FetchOutcome) :
    OnlySystemAdds st (summaryBranch st outcome) := by
  simp only [summaryBranch]
  split
  · exact onlySystemAdds_appendSys st _
  · split
    · exact onlySystemAdds_remoteSys _ st _
    · exact onlySystemAdds_remoteSys _ st _
    · exact onlySystemAdds_remoteSys _ st _

theorem onlySystemAdds_searchTopicBranch (args : List String) (st : AppState)
    (outcome : FetchOutcome) : OnlySystemAdds st (searchTopicBranch args st outcome) := by
  simp only [searchTopicBranch]
  split
  · exact onlySystemAdds_appendSys st _
  · split
    · split
      · exact onlySystemAdds_remoteSys _ st _
      · exact onlySystemAdds_remoteSys _ st _
    · exact onlySystemAdds_remoteSys _ st _
    · exact onlySystemAdds_remoteSys _ st _

theorem onlySystemAdds_searchBranch (args : List String) (st : AppState)
    (outcome : FetchOutcome) : OnlySystemAdds st (searchBranch args st outcome) := by
  simp only [searchBranch]
  split
  · exact onlySystemAdds_appendSys st _
  · split
    · split
      · exact onlySystemAdds_remoteSys _ st _
      · exact onlySystemAdds_remoteSys _ st _
    · exact onlySystemAdds_remoteSys _ st _
    · exact onlySystemAdds_remoteSys _ st _

theorem onlySystemAdds_vectorSearchBranch (args : List String) (st : AppState)
    (outcome : FetchOutcome) : OnlySystemAdds st (vectorSearchBranch args st outcome) := by
  simp only [vectorSearchBranch]
  split
  · exact onlySystemAdds_appendSys st _
  · split
    · split
      · exact onlySystemAdds_remoteSys _ st _
      · exact onlySystemAdds_remoteSys _ st _
    · exact onlySystemAdds_remoteSys _ st _
    · exact onlySystemAdds_remoteSys _ st _

theorem onlySystemAdds_documentVectorSearchBranch (args : List String) (st : AppState)
    (outcome : FetchOutcome) :
    OnlySystemAdds st (documentVectorSearchBranch args st outcome) := by
  simp only [documentVectorSearchBranch]
  split
  · exact onlySystemAdds_appendSys st _
  · split
    · split
      · exact onlySystemAdds_remoteSys _ st _
      · exact onlySystemAdds_remoteSys _ st _
    · exact onlySystemAdds_remoteSys _ st _
    · exact onlySystemAdds_remoteSys _ st _

theorem onlySystemAdds_allBranch (st : AppState) (outcome : FetchOutcome) :
    OnlySystemAdds st (allBranch st outcome) := by
  simp only [allBranch]
  split
  · split
    · exact onlySystemAdds_remoteSys _ st _
    · exact onlySystemAdds_remoteSys _ st _
  · exact onlySystemAdds_remoteSys _ st _
  · exact onlySystemAdds_remoteSys _ st _

theorem onlySystemAdds_resetBranch (st : AppState) (outcome : FetchOutcome) :
    OnlySystemAdds st (resetBranch st outcome) := by
  simp only [resetBranch]
  split
  · exact onlySystemAdds_remoteSys _ st _
  · exact onlySystemAdds_remoteSys _ st _
  · exact onlySystemAdds_remoteSys _ st _

theorem onlySystemAdds_unknown (st : AppState) (normalized : String) :
    OnlySystemAdds st
      ({ st with messages := st.messages ++ [unknownCommandMsg normalized] },
       [Event.appendMsg (unknownCommandMsg normalized)]) := by
  constructor
  · intro m hm
    simp only [List.mem_append, List.mem_singleton] at hm
    rcases hm with hm | rfl
    · exact Or.inl hm
    · exact Or.inr rfl
  · intro e he m hem
    simp only [List.mem_singleton] at he
    subst he
    cases hem
    rfl

theorem onlySystemAdds_handleNamed (normalized : String) (args : List String)
    (st : AppState) (outcome : FetchOutcome) :
    OnlySystemAdds st (handleNamed normalized args st outcome) := by
  simp only [handleNamed]
  split
  · exact onlySystemAdds_topicBranch args st outcome
  · split
    · exact onlySystemAdds_sessionBranch args st outcome
    · split
      · exact onlySystemAdds_summaryBranch st outcome
      · split
        · exact onlySystemAdds_searchTopicBranch args st outcome
        · split
          · exact onlySystemAdds_searchBranch args st outcome
          · split
            · exact onlySystemAdds_vectorSearchBranch args st outcome
            · split
              · exact onlySystemAdds_documentVectorSearchBranch args st outcome
              · split
                · exact onlySystemAdds_allBranch st outcome
                · split
                  · exact onlySystemAdds_resetBranch st outcome
                  · split
                    · exact onlySystemAdds_appendSys st _
                    · exact onlySystemAdds_unknown st _

theorem onlySystemAdds_handleCommand (rawCommand : String) (st : AppState)
    (outcome : FetchOutcome) :
    OnlySystemAdds st (handleCommand rawCommand st outcome) := by
  simp only [handleCommand]
  split
  · exact onlySystemAdds_appendSys st _
  · exact onlySystemAdds_handleNamed _ _ st outcome

/-- The empty-input prompt of handleCommand (App.tsx lines 682-685). -/
def emptySlashPrompt : Msg := Msg.mk Role.system "Type /help to see the available commands."

set_option maxRecDepth 4000 in
/-- C2: the claim asserts every slash-command invocation with a
non-empty token first echoes the raw command as an operator message.
handleCommand (App.tsx lines 678-970) never does: the raw command is
only written to the console, and every transcript addition of the
interpreter is a system message — on the concrete invocation "/help"
the whole trace is one system append and no operator echo occurs. -/
theorem c2_counterexample :
    (handleCommand "/help" baseState FetchOutcome.netFail).2 =
      [Event.appendMsg (Msg.mk Role.system helpText)] ∧
    (handleCommand "/help" baseState FetchOutcome.netFail).2.head? ≠
      some (Event.appendMsg (Msg.mk Role.teacher "/help")) := by
  decide

/-- C2 (amended): no slash-command invocation echoes the command to the
transcript: every message handleCommand adds has the system role (and
every append event it emits is a system append); empty input after the
slash produces exactly the single "Type /help to see the available
commands." prompt and nothing else. -/
theorem c2_amended (rawCommand : String) (st : AppState) (outcome : FetchOutcome) :
    OnlySystemAdds st (handleCommand rawCommand st outcome) ∧
    (jsTrim (jsDrop1 rawCommand) = "" →
      handleCommand rawCommand st outcome =
        ({ st with messages := st.messages ++ [emptySlashPrompt] },
         [Event.appendMsg emptySlashPrompt])) := by
  refine ⟨onlySystemAdds_handleCommand rawCommand st outcome, ?_⟩
  intro h
  have hp : parseCommand rawCommand = none := by
    unfold parseCommand
    rw [h]
    rfl
  simp [handleCommand, hp, appendSys, emptySlashPrompt]

/-- Witness for c2_amended on the invocation "/" (empty after slash). -/
theorem c2_amended_witness :
    OnlySystemAdds baseState (handleCommand "/" baseState FetchOutcome.netFail) ∧
    handleCommand "/" baseState FetchOutcome.netFail =
      ({ baseState with messages := baseState.messages ++ [emptySlashPrompt] },
       [Event.appendMsg emptySlashPrompt]) := by
  have h := c2_amended "/" baseState FetchOutcome.netFail
  exact ⟨h.1, h.2 (by decide)⟩

/-- The command names handleCommand recognizes (App.tsx lines 697-967). -/
def recognizedNames : List String :=
  ["topic", "session", "summary", "search_topic", "search",
   "vectorsearch", "documentvectorsearch", "all", "reset", "help"]

/-- C4: every slash input whose first token matches no recognized
command appends exactly one system message "Unknown command
“/<token>”. Try /help." (with the token lower-cased, as the code
normalizes it) and performs zero remote calls. -/
theorem c4_unknown_command (rawCommand tok : String) (args : List String)
    (st : AppState) (outcome : FetchOutcome)
    (hp : parseCommand rawCommand = some (tok, args))
    (hu : jsToLower tok ∉ recognizedNames) :
    handleCommand rawCommand st outcome =
      ({ st with messages := st.messages ++ [unknownCommandMsg (jsToLower tok)] },
       [Event.appendMsg (unknownCommandMsg (jsToLower tok))]) ∧
    ∀ e ∈ (handleCommand rawCommand st outcome).2, e.isRemote = false := by
  simp only [recognizedNames, List.mem_cons, List.mem_singleton, List.not_mem_nil,
    or_false, not_or] at hu
  obtain ⟨h1, h2, h3, h4, h5, h6, h7, h8, h9, h10⟩ := hu
  have hcmd : handleCommand rawCommand st outcome =
      handleNamed (jsToLower tok) args st outcome := by
    simp only [handleCommand, hp]
  have heq : handleCommand rawCommand st outcome =
      ({ st with messages := st.messages ++ [unknownCommandMsg (jsToLower tok)] },
       [Event.appendMsg (unknownCommandMsg (jsToLower tok))]) := by
    rw [hcmd]
    simp only [handleNamed]
    simp [h1, h2, h3, h4, h5, h6, h7, h8, h9, h10]
  refine ⟨heq, ?_⟩
  rw [heq]
  intro e he
  simp only [List.mem_singleton] at he
  subst he
  rfl

/-- Witness for c4_unknown_command on the input "/frobnicate now". -/
theorem c4_unknown_command_witness :
    handleCommand "/frobnicate now" baseState FetchOutcome.netFail =
      ({ baseState with
          messages := baseState.messages ++ [unknownCommandMsg (jsToLower "frobnicate")] },
       [Event.appendMsg (unknownCommandMsg (jsToLower "frobnicate"))]) ∧
    ∀ e ∈ (handleCommand "/frobnicate now" baseState FetchOutcome.netFail).2,
      e.isRemote = false :=
  c4_unknown_command "/frobnicate now" "frobnicate" ["now"] baseState FetchOutcome.netFail
    (by decide) (by decide)

/-- The argument-requiring commands and their declared usage strings
(App.tsx lines 37-88 and the corresponding guard branches). -/
def argCommands : List (String × String) :=
  [("topic", "/topic <new_topic>"),
   ("search_topic", "/search_topic <keywords>"),
   ("search", "/search <keywords>"),
   ("vectorsearch", "/vectorsearch <query>"),
   ("documentvectorsearch", "/documentvectorsearch <query>")]

/-- C5: every recognized argument-requiring command (topic,
search_topic, search, vectorsearch, documentvectorsearch) invoked with
a missing (or whitespace-only) argument appends exactly one system
message consisting of "Usage: " followed by the command's declared
usage string verbatim, and performs no remote call. -/
theorem c5_missing_argument (rawCommand tok usage : String) (args : List String)
    (st : AppState) (outcome : FetchOutcome)
    (hp : parseCommand rawCommand = some (tok, args))
    (hc : (jsToLower tok, usage) ∈ argCommands)
    (ha : jsTrim (String.intercalate " " args) = "") :
    handleCommand rawCommand st outcome =
      ({ st with messages := st.messages ++ [Msg.mk Role.system ("Usage: " ++ usage)] },
       [Event.appendMsg (Msg.mk Role.system ("Usage: " ++ usage))]) ∧
    declaredUsage (jsToLower tok) = some usage ∧
    ∀ e ∈ (handleCommand rawCommand st outcome).2, e.isRemote = false := by
  simp only [argCommands, List.mem_cons, List.mem_singleton, List.not_mem_nil,
    or_false, Prod.mk.injEq] at hc
  have hcmd : handleCommand rawCommand st outcome =
      handleNamed (jsToLower tok) args st outcome := by
    simp only [handleCommand, hp]
  have heq : handleCommand rawCommand st outcome =
      ({ st with messages := st.messages ++ [Msg.mk Role.system ("Usage: " ++ usage)] },
       [Event.appendMsg (Msg.mk Role.system ("Usage: " ++ usage))]) ∧
      declaredUsage (jsToLower tok) = some usage := by
    rcases hc with ⟨h1, h2⟩ | ⟨h1, h2⟩ | ⟨h1, h2⟩ | ⟨h1, h2⟩ | ⟨h1, h2⟩ <;>
      subst h2 <;>
      rw [hcmd, h1] <;>
      constructor <;>
      simp [handleNamed, topicBranch, searchTopicBranch, searchBranch,
        vectorSearchBranch, documentVectorSearchBranch, ha, appendSys,
        declaredUsage, COMMANDS, List.find?]
  refine ⟨heq.1, heq.2, ?_⟩
  rw [heq.1]
  intro e he
  simp only [List.mem_singleton] at he
  subst he
  rfl

/-- Witness for c5_missing_argument on the input "/topic   ". -/
theorem c5_missing_argument_witness :
    handleCommand "/topic   " baseState FetchOutcome.netFail =
      ({ baseState with
          messages := baseState.messages ++
            [Msg.mk Role.system ("Usage: " ++ "/topic <new_topic>")] },
       [Event.appendMsg (Msg.mk Role.system ("Usage: " ++ "/topic <new_topic>"))]) ∧
    declaredUsage (jsToLower "topic") = some "/topic <new_topic>" ∧
    ∀ e ∈ (handleCommand "/topic   " baseState FetchOutcome.netFail).2,
      e.isRemote = false :=
  c5_missing_argument "/topic   " "topic" "/topic <new_topic>" [] baseState
    FetchOutcome.netFail (by decide) (by decide) (by decide)

/-- C3: the claim asserts a session-list refresh is triggered whenever a
server response was obtained, success or not.  In sendPrompt (App.tsx
lines 632-654) the fetchSessions call sits on the success path only: a
non-ok response appends the error message and returns before reaching
it, as this concrete run shows (Sending does return to Idle). -/
theorem c3_counterexample :
    Event.fetchSessionsCall ∉
      (sendPrompt "hi" baseState (FetchOutcome.httpFail "boom" "500")).2 ∧
    (sendPrompt "hi" baseState (FetchOutcome.httpFail "boom" "500")).1.isSending = false := by
  decide

/-- C3 (amended): every chat-send returns the Sending state to Idle
regardless of outcome, but the session-list refresh is triggered exactly
when the response was ok and its body parsed; a non-success status or a
network/parse failure triggers no refresh. -/
theorem c3_amended (prompt : String) (st : AppState) (outcome : FetchOutcome) :
    (sendPrompt prompt st outcome).1.isSending = false ∧
    (Event.fetchSessionsCall ∈ (sendPrompt prompt st outcome).2 ↔
      outcome.isSuccess = true) := by
  cases outcome with
  | ok data =>
      constructor
      · simp only [sendPrompt]
        split_ifs <;> simp
      · simp only [sendPrompt, FetchOutcome.isSuccess]
        split_ifs <;> simp
  | httpFail body statusText =>
      constructor
      · simp only [sendPrompt]
        split_ifs <;> simp
      · simp only [sendPrompt, FetchOutcome.isSuccess]
        split_ifs <;> simp
  | netFail =>
      constructor
      · simp only [sendPrompt]
        split_ifs <;> simp
      · simp only [sendPrompt, FetchOutcome.isSuccess]
        split_ifs <;> simp

/-- A base state with teach mode on. -/
def stTeach : AppState := { baseState with teachMode := true }

/-- A success body flagged silent. -/
def silentBody : J := J.obj [("silent", J.bool true)]

/-- C6: a chat-send started while teach mode is on sets the indicator to
learning before the chat request is issued; when the reply is marked
silent the transcript gains no assistant message (only the operator
echo) and the indicator moves to learned with the fixed 2500 ms
auto-reset timer armed, whose firing returns it to idle; a non-silent
success and every failure revert the indicator to idle immediately; and
turning teach mode off forces idle and cancels the pending auto-reset
timer (a pending timer only ever exists while the indicator is not
idle, which the guard of the last conjunct reflects). -/
theorem c6_teach_mode_lifecycle (prompt : String) (st : AppState)
    (outcome : FetchOutcome) (hT : st.teachMode = true) :
    eventBefore (Event.setStatus TeachStatus.learning) (Event.remoteCall "chat")
      (sendPrompt prompt st outcome).2 = true ∧
    (∀ data, outcome = FetchOutcome.ok data → chatSilent data = true →
      (sendPrompt prompt st outcome).1.messages =
        st.messages ++ [Msg.mk Role.teacher prompt] ∧
      (sendPrompt prompt st outcome).1.teachStatus = TeachStatus.learned ∧
      (sendPrompt prompt st outcome).1.timerPending = some 2500 ∧
      (timerFire (sendPrompt prompt st outcome).1).teachStatus = TeachStatus.idle ∧
      (timerFire (sendPrompt prompt st outcome).1).timerPending = none) ∧
    (∀ data, outcome = FetchOutcome.ok data → chatSilent data = false →
      (sendPrompt prompt st outcome).1.teachStatus = TeachStatus.idle) ∧
    (outcome.isFailure = true →
      (sendPrompt prompt st outcome).1.teachStatus = TeachStatus.idle) ∧
    (∀ st2 : AppState, (turnTeachModeOff st2).1.teachStatus = TeachStatus.idle ∧
      ((st2.timerPending = none ∨ st2.teachStatus ≠ TeachStatus.idle) →
        (turnTeachModeOff st2).1.timerPending = none)) := by
  refine ⟨?_, ?_, ?_, ?_, ?_⟩
  · cases outcome with
    | ok data =>
        cases hpt : st.timerPending <;>
          by_cases hs : chatSilent data = true <;>
          simp_all [sendPrompt, hT, hpt, eventBefore, firstIdxAux]
    | httpFail body statusText =>
        cases hpt : st.timerPending <;>
          simp [sendPrompt, hT, hpt, eventBefore, firstIdxAux]
    | netFail =>
        cases hpt : st.timerPending <;>
          simp [sendPrompt, hT, hpt, eventBefore, firstIdxAux]
  · intro data hod hs
    subst hod
    cases hpt : st.timerPending <;>
      simp [sendPrompt, hT, hs, hpt, timerFire]
  · intro data hod hs
    subst hod
    cases hpt : st.timerPending <;>
      simp [sendPrompt, hT, hs, hpt]
  · intro hf
    cases outcome with
    | ok data => simp [FetchOutcome.isFailure] at hf
    | httpFail body statusText =>
        cases hpt : st.timerPending <;> simp [sendPrompt, hT, hpt]
    | netFail =>
        cases hpt : st.timerPending <;> simp [sendPrompt, hT, hpt]
  · intro st2
    constructor
    · by_cases hst : st2.teachStatus = TeachStatus.idle
      · simp [turnTeachModeOff, teachModeOffReset, hst]
      · simp [turnTeachModeOff, teachModeOffReset, hst]
    · intro hcase
      by_cases hst : st2.teachStatus = TeachStatus.idle
      · rcases hcase with hnone | hne
        · simp [turnTeachModeOff, teachModeOffReset, hst, hnone]
        · exact absurd hst hne
      · simp [turnTeachModeOff, teachModeOffReset, hst]

/-- Witness for c6_teach_mode_lifecycle on a silent success with teach
mode on. -/
theorem c6_teach_mode_lifecycle_witness :
    eventBefore (Event.setStatus TeachStatus.learning) (Event.remoteCall "chat")
      (sendPrompt "hi" stTeach (FetchOutcome.ok silentBody)).2 = true ∧
    (sendPrompt "hi" stTeach (FetchOutcome.ok silentBody)).1.messages =
      stTeach.messages ++ [Msg.mk Role.teacher "hi"] ∧
    (sendPrompt "hi" stTeach (FetchOutcome.ok silentBody)).1.teachStatus =
      TeachStatus.learned ∧
    (sendPrompt "hi" stTeach (FetchOutcome.ok silentBody)).1.timerPending = some 2500 ∧
    (timerFire (sendPrompt "hi" stTeach (FetchOutcome.ok silentBody)).1).teachStatus =
      TeachStatus.idle := by
  have h := c6_teach_mode_lifecycle "hi" stTeach (FetchOutcome.ok silentBody) rfl
  have h2 := h.2.1 silentBody rfl (by decide)
  exact ⟨h.1, h2.1, h2.2.1, h2.2.2.1, h2.2.2.2.1⟩

end AiBuddy
